import Mathlib

/-!
# Verification of the StudyCompanion desktop launcher (src-tauri/src/main.rs)

Shallow embedding of the Rust supervisor in `src/src-tauri/src/main.rs`.

The program is a sequence of straight-line steps whose only interaction with
the outside world is: HTTP probes (transport result + status code), OS child
process spawning (`Command::spawn`, detached, result is a handle or an OS
error), blocking command execution (`Command::output`, result is an exit
status plus captured streams or an OS error), and file-existence checks.
Each of those external outcomes is an input supplied by an `Env` record, so
one `Env` value corresponds to one execution of the Rust code.  The
mutex-guarded process slots (`AppState`) are modelled as plain optional
handles because every lock in the source is acquired and released within a
single straight-line step, never across a suspension point, so the sequential
semantics coincides with the locked one.  Every externally visible action
(spawn attempt, blocking command run, kill) is recorded in an event trace.
-/

namespace StudyCompanion

/-- The two mutex-guarded process slots of the Rust `AppState`; a handle is
an abstract identifier of a spawned child process. -/
structure AppState where
  flask_process : Option Nat
  ollama_process : Option Nat
deriving DecidableEq, Repr

/-- Mirror of the Rust `ServiceStatus` struct. -/
structure ServiceStatus where
  flask_running : Bool
  ollama_running : Bool
  message : String
deriving DecidableEq, Repr

/-- Externally visible actions of the supervisor.  `spawnProc` is a detached
`Command::spawn` attempt (program, argument list, extra environment
variables, whether stdout and stderr are redirected to null); `execCmd` is a
blocking `Command::output` invocation; `killProc` is a `Child::kill`
request on a stored handle. -/
inductive Event where
  | spawnProc (prog : String) (args : List String)
      (envVars : List (String × String)) (stdoutNull stderrNull : Bool)
  | execCmd (prog : String) (args : List String)
  | killProc (h : Nat)
deriving DecidableEq, Repr

/-- `StatusCode::is_success` of reqwest: a 2xx status code. -/
def status_is_success (s : Nat) : Bool :=
  decide (200 ≤ s) && decide (s < 300)

/-- Boolean outcome of one HTTP probe given the transport result
(`none` = timeout/connection error, `some s` = response with status `s`). -/
def probeBool (resp : Option Nat) : Bool :=
  match resp with
  | some s => status_is_success s
  | none => false

/-- `check_flask_running`: GET to the backend health endpoint; a received
response maps to `Ok(status.is_success())`, a transport error to
`Ok(false)`.  The error side of the `Result` is never produced. -/
def check_flask_running (resp : Option Nat) : Except String Bool :=
  match resp with
  | some s => .ok (status_is_success s)
  | none => .ok false

/-- `check_ollama_running`: GET to the engine tag endpoint; same shape as
`check_flask_running`. -/
def check_ollama_running (resp : Option Nat) : Except String Bool :=
  match resp with
  | some s => .ok (status_is_success s)
  | none => .ok false

/-- `Result::unwrap_or`. -/
def unwrapOr {ε α : Type} (r : Except ε α) (d : α) : α :=
  match r with
  | .ok a => a
  | .error _ => d

/-- The spawn attempt performed by `start_ollama`:
`Command::new("ollama").arg("serve")` with both streams nulled. -/
def ollamaSpawnEvent : Event :=
  .spawnProc "ollama" ["serve"] [] true true

/-- `start_ollama`: spawn the engine detached, store the handle in the
engine slot on success, surface an error string on OS spawn failure. -/
def start_ollama (spawnRes : Except String Nat) (st : AppState) :
    Except String Unit × AppState × List Event :=
  match spawnRes with
  | .error e =>
      (.error ("Failed to start Ollama: " ++ e), st, [ollamaSpawnEvent])
  | .ok h =>
      (.ok (), { st with ollama_process := some h }, [ollamaSpawnEvent])

/-- Paths are modelled as lists of components; `Path::parent` drops the last
component and is `none` on an empty path. -/
def parentDir (p : List String) : Option (List String) :=
  match p with
  | [] => none
  | _ => some p.dropLast

/-- Render a component path the way it is passed to `Command::arg`. -/
def pathStr (p : List String) : String :=
  String.intercalate "/" p

/-- The spawn attempt performed by `start_flask_backend`: `python` on the
entry script with the fixed port and production-mode environment variables,
both streams nulled. -/
def flaskSpawnEvent (script : List String) : Event :=
  .spawnProc "python" [pathStr script]
    [("PORT", "8000"), ("FLASK_ENV", "production")] true true

/-- The error returned when the bundled entry file is missing. -/
def backendNotFoundMsg : String :=
  "Backend script not found. Make sure app.py is bundled with the application."

/-- Oracle for one execution of the supervisor: the outcome of every
external interaction, in program order. -/
structure Env where
  /-- transport result of the engine probe at the top of bring-up -/
  ollamaResp1 : Option Nat
  /-- result of `Command::spawn` for the engine -/
  ollamaSpawn : Except String Nat
  /-- `std::env::current_exe()` as a component path -/
  currentExe : Except String (List String)
  /-- file-existence oracle (`Path::exists`) -/
  fileExists : List String → Bool
  /-- result of `Command::spawn` for the backend -/
  flaskSpawn : Except String Nat
  /-- transport result of the backend re-probe after the grace delay -/
  flaskResp2 : Option Nat
  /-- transport result of the engine re-probe after the grace delay -/
  ollamaResp2 : Option Nat

/-- `start_flask_backend`: locate `app.py` under the executable's `backend`
directory, fail fast if it is absent, otherwise spawn the backend detached
and store the handle in the backend slot. -/
def start_flask_backend (env : Env) (st : AppState) :
    Except String Unit × AppState × List Event :=
  match env.currentExe with
  | .error e =>
      (.error ("Failed to get current exe path: " ++ e), st, [])
  | .ok exePath =>
      match parentDir exePath with
      | none => (.error "Failed to get parent directory", st, [])
      | some dir =>
          let resource_dir := dir ++ ["backend"]
          let flask_script := resource_dir ++ ["app.py"]
          if env.fileExists flask_script then
            match env.flaskSpawn with
            | .error e =>
                (.error ("Failed to start Flask backend: " ++ e), st,
                  [flaskSpawnEvent flask_script])
            | .ok h =>
                (.ok (), { st with flask_process := some h },
                  [flaskSpawnEvent flask_script])
          else
            (.error backendNotFoundMsg, st, [])

/-- Result of one bring-up execution: the returned value, the final state of
the process slots, and the trace of external actions. -/
structure BringUpResult where
  res : Except String ServiceStatus
  state : AppState
  events : List Event
deriving Repr

/-- Backend half of bring-up: spawn the backend, sleep the grace period,
re-probe both endpoints, and build the `ServiceStatus` exactly as the Rust
code does. -/
def bringUpBackendPhase (env : Env) (st : AppState) (ev : List Event) :
    BringUpResult :=
  match start_flask_backend env st with
  | (.error e, st2, ev2) => ⟨.error e, st2, ev ++ ev2⟩
  | (.ok _, st2, ev2) =>
      let flask_running := unwrapOr (check_flask_running env.flaskResp2) false
      let ollama_running := unwrapOr (check_ollama_running env.ollamaResp2) false
      ⟨.ok ⟨flask_running, ollama_running,
            if flask_running && ollama_running then
              "All services started successfully"
            else
              "Some services failed to start"⟩,
        st2, ev ++ ev2⟩

/-- `start_backend_services`: probe the engine, spawn it only if the probe
reported it down, then unconditionally run the backend phase. -/
def start_backend_services (env : Env) (st : AppState) : BringUpResult :=
  match check_ollama_running env.ollamaResp1 with
  | .error e => ⟨.error ("Failed to check Ollama status: " ++ e), st, []⟩
  | .ok true => bringUpBackendPhase env st []
  | .ok false =>
      match start_ollama env.ollamaSpawn st with
      | (.error e, st1, ev1) => ⟨.error e, st1, ev1⟩
      | (.ok _, st1, ev1) => bringUpBackendPhase env st1 ev1

/-- `check_service_status`: probe both endpoints and render the per-service
state listing. -/
def check_service_status (flaskResp ollamaResp : Option Nat) :
    Except String ServiceStatus :=
  let flask_running := unwrapOr (check_flask_running flaskResp) false
  let ollama_running := unwrapOr (check_ollama_running ollamaResp) false
  .ok ⟨flask_running, ollama_running,
    "Flask: " ++ (if flask_running then "Running" else "Stopped")
      ++ ", Ollama: " ++ (if ollama_running then "Running" else "Stopped")⟩

/-- Substring containment, the semantics of Rust `str::contains` with a
string pattern. -/
def containsSubstr (s pat : String) : Prop :=
  pat.toList <:+: s.toList

instance (s pat : String) : Decidable (containsSubstr s pat) :=
  List.decidableInfix pat.toList s.toList

/-- Variant of `start_backend_services` with the engine-status error branch
removed: the probe outcome is read directly as a boolean.  Used to state
that the error branch of the source is unreachable. -/
def start_backend_services_total (env : Env) (st : AppState) : BringUpResult :=
  if probeBool env.ollamaResp1 then bringUpBackendPhase env st []
  else
    match start_ollama env.ollamaSpawn st with
    | (.error e, st1, ev1) => ⟨.error e, st1, ev1⟩
    | (.ok _, st1, ev1) => bringUpBackendPhase env st1 ev1

/-- Initial state of the application: both slots empty. -/
def st0 : AppState := ⟨none, none⟩

/-- Concrete execution: engine probe times out, both spawns succeed, entry
file present, both re-probes answer 200. -/
def envC1 : Env :=
  ⟨none, .ok 2, .ok ["home", "app"], fun _ => true, .ok 1, some 200, some 200⟩

/-- Concrete execution: engine probe answers 200, entry file present,
backend spawn yields handle 7, both re-probes answer 200. -/
def envC2 : Env :=
  ⟨some 200, .ok 2, .ok ["home", "app"], fun _ => true, .ok 7, some 200, some 200⟩

/-- Concrete execution: engine probe answers 200 but the entry file is
absent everywhere. -/
def envC3 : Env :=
  ⟨some 200, .ok 2, .ok ["home", "app"], fun _ => false, .ok 7, some 200, some 200⟩

/-- Concrete execution: everything healthy, both re-probes answer 200. -/
def envC5 : Env :=
  ⟨some 200, .ok 2, .ok ["home", "app"], fun _ => true, .ok 1, some 200, some 200⟩

/-- The compilation platform selecting the `cfg(target_os)` block of
`install_ollama`. -/
inductive Platform where
  | windows
  | macos
  | linux
deriving DecidableEq, Repr

/-- The blocking command run by `check_ollama_installed`. -/
def versionCheckEvent : Event := .execCmd "ollama" ["--version"]

/-- The blocking command run by `pull_phi_model`. -/
def pullEvent : Event := .execCmd "ollama" ["pull", "phi"]

/-- Program and argument list of the platform install command, exactly as
built by the source: on Windows a powershell download-and-silent-install
one-liner; on macOS and Linux a single `curl` invocation whose argument list
also carries the literal strings of the intended shell pipe. -/
def installCommand (p : Platform) : String × List String :=
  match p with
  | .windows =>
      ("powershell",
        ["-Command",
         "Invoke-WebRequest -Uri https://ollama.ai/download/windows -OutFile ollama-installer.exe; Start-Process -FilePath .\\ollama-installer.exe -ArgumentList \x27/S\x27 -Wait"])
  | .macos => ("curl", ["-fsSL", "https://ollama.ai/install.sh", "|", "sh"])
  | .linux => ("curl", ["-fsSL", "https://ollama.ai/install.sh", "|", "sh"])

/-- Prefix of the spawn-failure message of the install command. -/
def installErrPrefix (p : Platform) : String :=
  match p with
  | .windows => "Failed to install Ollama on Windows: "
  | .macos => "Failed to install Ollama on macOS: "
  | .linux => "Failed to install Ollama on Linux: "

/-- `install_ollama`: run the platform install command blocking;
`cmdRes` is `.error e` when the OS could not run it and `.ok success`
the exit-status predicate otherwise. -/
def install_ollama (p : Platform) (cmdRes : Except String Bool) :
    Except String Unit × List Event :=
  let ev := [Event.execCmd (installCommand p).1 (installCommand p).2]
  match cmdRes with
  | .error e => (.error (installErrPrefix p ++ e), ev)
  | .ok true => (.ok (), ev)
  | .ok false => (.error "Ollama installation failed", ev)

/-- `check_ollama_installed`: run `ollama --version` blocking; the result is
`output().is_ok()` (the process could be launched at all). -/
def check_ollama_installed (res : Bool) : Bool × List Event :=
  (res, [versionCheckEvent])

/-- Executable substring test used to model Rust `text.contains("phi")`. -/
def strContains (s pat : String) : Bool :=
  decide (pat.toList <:+: s.toList)

/-- `check_phi_model_available`: GET the tag listing; `resp` is `none` on
transport error, `some none` when reading the body failed, and
`some (some text)` on success; the body is searched for `"phi"`. -/
def check_phi_model_available (resp : Option (Option String)) : Bool :=
  match resp with
  | some (some text) => strContains text "phi"
  | some none => false
  | none => false

/-- `pull_phi_model`: run `ollama pull phi` blocking; `res` is `.error e`
when the OS could not run it, and `.ok (success, stderrText)` the
exit-status predicate together with the captured standard error. -/
def pull_phi_model (res : Except String (Bool × String)) :
    Except String Unit × List Event :=
  match res with
  | .error e => (.error ("Failed to pull phi model: " ++ e), [pullEvent])
  | .ok (success, stderrText) =>
      if success then (.ok (), [pullEvent])
      else (.error ("Failed to pull phi model: " ++ stderrText), [pullEvent])

/-- Oracle for one execution of the installer command. -/
structure InstallEnv where
  /-- compilation platform -/
  platform : Platform
  /-- `check_ollama_installed` outcome: could `ollama --version` be run -/
  versionCheck : Bool
  /-- tag-listing response used by `check_phi_model_available` -/
  tagsResp : Option (Option String)
  /-- outcome of the platform install command -/
  installCmd : Except String Bool
  /-- outcome of `ollama pull phi` -/
  pullCmd : Except String (Bool × String)

/-- `install_ollama_and_model`: if the engine is present, pull the model
only when the tag listing lacks it; otherwise install the engine first,
wait the grace period, then pull the model. -/
def install_ollama_and_model (env : InstallEnv) :
    Except String String × List Event :=
  match check_ollama_installed env.versionCheck with
  | (true, ev0) =>
      if check_phi_model_available env.tagsResp then
        (.ok "Ollama and phi model are already installed", ev0)
      else
        match pull_phi_model env.pullCmd with
        | (.error e, ev1) => (.error e, ev0 ++ ev1)
        | (.ok _, ev1) => (.ok "Phi model installed successfully", ev0 ++ ev1)
  | (false, ev0) =>
      match install_ollama env.platform env.installCmd with
      | (.error e, ev1) => (.error e, ev0 ++ ev1)
      | (.ok _, ev1) =>
          match pull_phi_model env.pullCmd with
          | (.error e, ev2) => (.error e, ev0 ++ ev1 ++ ev2)
          | (.ok _, ev2) =>
              (.ok "Ollama and phi model installed successfully",
                ev0 ++ ev1 ++ ev2)

/-- Concrete installer execution: engine binary absent, install and pull
both succeed. -/
def envC6a : InstallEnv := ⟨.linux, false, none, .ok true, .ok (true, "")⟩

/-- Concrete installer execution: engine present and the tag listing
already names the model. -/
def envC6b : InstallEnv :=
  ⟨.linux, true, some (some "phi model listed"), .ok true, .ok (true, "")⟩

/-- `on_window_event` close-requested handler: take whatever handle each
slot holds (leaving it empty) and issue one kill request for it, backend
slot first, engine slot second. -/
def on_close_requested (st : AppState) : AppState × List Event :=
  let flaskKill :=
    match st.flask_process with
    | some h => [Event.killProc h]
    | none => []
  let ollamaKill :=
    match st.ollama_process with
    | some h => [Event.killProc h]
    | none => []
  (⟨none, none⟩, flaskKill ++ ollamaKill)

/-! ## Helper lemmas shared by the claim theorems -/

/-- The backend probe is total: it answers `Ok` of the probe boolean. -/
theorem check_flask_running_eq (r : Option Nat) :
    check_flask_running r = .ok (probeBool r) := by
  cases r <;> rfl

/-- The engine probe is total: it answers `Ok` of the probe boolean. -/
theorem check_ollama_running_eq (r : Option Nat) :
    check_ollama_running r = .ok (probeBool r) := by
  cases r <;> rfl

/-- `unwrap_or(false)` on the backend probe is the probe boolean. -/
theorem unwrap_check_flask (r : Option Nat) :
    unwrapOr (check_flask_running r) false = probeBool r := by
  cases r <;> rfl

/-- `unwrap_or(false)` on the engine probe is the probe boolean. -/
theorem unwrap_check_ollama (r : Option Nat) :
    unwrapOr (check_ollama_running r) false = probeBool r := by
  cases r <;> rfl

/-- Backend phase when resolving the executable path fails. -/
theorem bringUpBackendPhase_exe_err (env : Env) (st : AppState)
    (ev : List Event) (e : String) (hexe : env.currentExe = .error e) :
    bringUpBackendPhase env st ev =
      ⟨.error ("Failed to get current exe path: " ++ e), st, ev⟩ := by
  unfold bringUpBackendPhase start_flask_backend
  simp [hexe]

/-- Backend phase when the executable path has no parent. -/
theorem bringUpBackendPhase_parent_none (env : Env) (st : AppState)
    (ev : List Event) (exe : List String)
    (hexe : env.currentExe = .ok exe) (hdir : parentDir exe = none) :
    bringUpBackendPhase env st ev =
      ⟨.error "Failed to get parent directory", st, ev⟩ := by
  unfold bringUpBackendPhase start_flask_backend
  simp [hexe, hdir]

/-- When the probe reports the engine up, bring-up is exactly the backend
phase on the unchanged state with an empty prior trace. -/
theorem start_backend_services_up (env : Env) (st : AppState)
    (hpb : probeBool env.ollamaResp1 = true) :
    start_backend_services env st = bringUpBackendPhase env st [] := by
  unfold start_backend_services
  rw [check_ollama_running_eq, hpb]

/-- When the probe reports the engine down and the spawn succeeds, bring-up
is the backend phase on the state holding the new engine handle, after the
engine spawn event. -/
theorem start_backend_services_down_ok (env : Env) (st : AppState) (h : Nat)
    (hpb : probeBool env.ollamaResp1 = false)
    (hsp : env.ollamaSpawn = .ok h) :
    start_backend_services env st =
      bringUpBackendPhase env { st with ollama_process := some h }
        [ollamaSpawnEvent] := by
  unfold start_backend_services start_ollama
  rw [check_ollama_running_eq, hpb, hsp]

/-- When the probe reports the engine down and the spawn fails, bring-up
returns the spawn error with only the attempt in the trace. -/
theorem start_backend_services_down_err (env : Env) (st : AppState)
    (e : String) (hpb : probeBool env.ollamaResp1 = false)
    (hsp : env.ollamaSpawn = .error e) :
    start_backend_services env st =
      ⟨.error ("Failed to start Ollama: " ++ e), st, [ollamaSpawnEvent]⟩ := by
  unfold start_backend_services start_ollama
  rw [check_ollama_running_eq, hpb, hsp]

/-- When the entry file is absent, the backend phase fails with the
not-found message, leaves the state alone, and emits nothing. -/
theorem bringUpBackendPhase_missing_eq (env : Env) (st : AppState)
    (ev : List Event) (exe dir : List String)
    (hexe : env.currentExe = .ok exe) (hdir : parentDir exe = some dir)
    (hfile : env.fileExists (dir ++ ["backend", "app.py"]) = false) :
    bringUpBackendPhase env st ev = ⟨.error backendNotFoundMsg, st, ev⟩ := by
  unfold bringUpBackendPhase start_flask_backend
  simp [hexe, hdir, hfile]

/-- Backend phase when the entry file is present but the OS spawn fails. -/
theorem bringUpBackendPhase_spawn_err (env : Env) (st : AppState)
    (ev : List Event) (exe dir : List String) (e : String)
    (hexe : env.currentExe = .ok exe) (hdir : parentDir exe = some dir)
    (hfile : env.fileExists (dir ++ ["backend", "app.py"]) = true)
    (hspawn : env.flaskSpawn = .error e) :
    bringUpBackendPhase env st ev =
      ⟨.error ("Failed to start Flask backend: " ++ e), st,
        ev ++ [flaskSpawnEvent (dir ++ ["backend", "app.py"])]⟩ := by
  unfold bringUpBackendPhase start_flask_backend
  simp [hexe, hdir, hfile, hspawn]

/-- When the entry file is present and the backend spawn succeeds, the
backend phase stores the handle, emits the backend spawn event, and builds
the status from the two re-probes. -/
theorem bringUpBackendPhase_spawn_eq (env : Env) (st : AppState)
    (ev : List Event) (exe dir : List String) (h : Nat)
    (hexe : env.currentExe = .ok exe) (hdir : parentDir exe = some dir)
    (hfile : env.fileExists (dir ++ ["backend", "app.py"]) = true)
    (hspawn : env.flaskSpawn = .ok h) :
    bringUpBackendPhase env st ev =
      ⟨.ok ⟨probeBool env.flaskResp2, probeBool env.ollamaResp2,
            if probeBool env.flaskResp2 && probeBool env.ollamaResp2 then
              "All services started successfully"
            else "Some services failed to start"⟩,
        { st with flask_process := some h },
        ev ++ [flaskSpawnEvent (dir ++ ["backend", "app.py"])]⟩ := by
  unfold bringUpBackendPhase start_flask_backend
  simp [hexe, hdir, hfile, hspawn, unwrap_check_flask, unwrap_check_ollama]

/-- The backend phase never touches the engine slot. -/
theorem bringUpBackendPhase_ollama_slot (env : Env) (st : AppState)
    (ev : List Event) :
    (bringUpBackendPhase env st ev).state.ollama_process =
      st.ollama_process := by
  rcases hexe : env.currentExe with e | exe
  · rw [bringUpBackendPhase_exe_err env st ev e hexe]
  · rcases hdir : parentDir exe with _ | dir
    · rw [bringUpBackendPhase_parent_none env st ev exe hexe hdir]
    · cases hfile : env.fileExists (dir ++ ["backend", "app.py"]) with
      | false => rw [bringUpBackendPhase_missing_eq env st ev exe dir hexe hdir hfile]
      | true =>
          rcases hspawn : env.flaskSpawn with e | h
          · rw [bringUpBackendPhase_spawn_err env st ev exe dir e hexe hdir hfile hspawn]
          · rw [bringUpBackendPhase_spawn_eq env st ev exe dir h hexe hdir hfile hspawn]

/-- Every event emitted by the backend phase beyond the given trace is a
backend spawn attempt, and the given trace is kept as a prefix. -/
theorem bringUpBackendPhase_events_shape (env : Env) (st : AppState)
    (ev : List Event) :
    (bringUpBackendPhase env st ev).events = ev ∨
      ∃ s, (bringUpBackendPhase env st ev).events =
        ev ++ [flaskSpawnEvent s] := by
  rcases hexe : env.currentExe with e | exe
  · rw [bringUpBackendPhase_exe_err env st ev e hexe]; exact Or.inl rfl
  · rcases hdir : parentDir exe with _ | dir
    · rw [bringUpBackendPhase_parent_none env st ev exe hexe hdir]
      exact Or.inl rfl
    · cases hfile : env.fileExists (dir ++ ["backend", "app.py"]) with
      | false =>
          rw [bringUpBackendPhase_missing_eq env st ev exe dir hexe hdir hfile]
          exact Or.inl rfl
      | true =>
          rcases hspawn : env.flaskSpawn with e | h
          · rw [bringUpBackendPhase_spawn_err env st ev exe dir e hexe hdir hfile hspawn]
            exact Or.inr ⟨_, rfl⟩
          · rw [bringUpBackendPhase_spawn_eq env st ev exe dir h hexe hdir hfile hspawn]
            exact Or.inr ⟨_, rfl⟩

/-! ## Claim theorems -/

/-- C1: in bring-up the engine is spawned if and only if the health probe
reported it down: when the probe answers false, the detached engine spawn
attempt (streams discarded) is in the trace and a successfully spawned
handle is stored in the engine slot; when the probe answers true, no engine
spawn occurs and the engine slot is untouched. -/
theorem c1_engine_spawned_iff_probe_down (env : Env) (st : AppState) :
    (probeBool env.ollamaResp1 = false →
        ollamaSpawnEvent ∈ (start_backend_services env st).events ∧
        ∀ h, env.ollamaSpawn = .ok h →
          (start_backend_services env st).state.ollama_process = some h) ∧
    (probeBool env.ollamaResp1 = true →
        ollamaSpawnEvent ∉ (start_backend_services env st).events ∧
        (start_backend_services env st).state.ollama_process =
          st.ollama_process) := by
  constructor
  · intro hpb
    rcases hsp : env.ollamaSpawn with e | h
    · rw [start_backend_services_down_err env st e hpb hsp]
      refine ⟨by simp, fun h2 hh2 => ?_⟩
      simp at hh2
    · rw [start_backend_services_down_ok env st h hpb hsp]
      constructor
      · rcases bringUpBackendPhase_events_shape env
            { st with ollama_process := some h } [ollamaSpawnEvent] with
          hs | ⟨s, hs⟩ <;> rw [hs] <;> simp
      · intro h2 hh2
        injection hh2 with h3
        subst h3
        rw [bringUpBackendPhase_ollama_slot]
  · intro hpb
    rw [start_backend_services_up env st hpb]
    constructor
    · rcases bringUpBackendPhase_events_shape env st [] with hs | ⟨s, hs⟩ <;>
        rw [hs] <;> simp [flaskSpawnEvent, ollamaSpawnEvent]
    · rw [bringUpBackendPhase_ollama_slot]

/-- Witness for C1: on a concrete execution whose first probe times out,
the engine spawn attempt is traced and handle 2 lands in the engine slot. -/
theorem c1_engine_spawned_iff_probe_down_witness :
    ollamaSpawnEvent ∈ (start_backend_services envC1 st0).events ∧
    (start_backend_services envC1 st0).state.ollama_process = some 2 :=
  ⟨((c1_engine_spawned_iff_probe_down envC1 st0).1 rfl).1,
   ((c1_engine_spawned_iff_probe_down envC1 st0).1 rfl).2 2 rfl⟩

/-- C2: whenever bring-up reaches the backend step with the entry file
present, the backend spawn attempt with the fixed port and production-mode
environment (streams discarded) is in the trace and the successfully
spawned handle is stored in the backend slot, independently of the
backend's prior reachability. -/
theorem c2_backend_spawned_unconditionally (env : Env) (st : AppState)
    (exe dir : List String) (h : Nat)
    (hexe : env.currentExe = .ok exe) (hdir : parentDir exe = some dir)
    (hfile : env.fileExists (dir ++ ["backend", "app.py"]) = true)
    (hspawn : env.flaskSpawn = .ok h)
    (hreach : probeBool env.ollamaResp1 = true ∨
      ∃ k, env.ollamaSpawn = .ok k) :
    flaskSpawnEvent (dir ++ ["backend", "app.py"]) ∈
        (start_backend_services env st).events ∧
    (start_backend_services env st).state.flask_process = some h := by
  have hup : probeBool env.ollamaResp1 = true →
      flaskSpawnEvent (dir ++ ["backend", "app.py"]) ∈
          (start_backend_services env st).events ∧
      (start_backend_services env st).state.flask_process = some h := by
    intro hpb
    rw [start_backend_services_up env st hpb,
      bringUpBackendPhase_spawn_eq env st [] exe dir h hexe hdir hfile hspawn]
    simp
  rcases hreach with hpb | ⟨k, hk⟩
  · exact hup hpb
  · cases hpb : probeBool env.ollamaResp1 with
    | true => exact hup hpb
    | false =>
        rw [start_backend_services_down_ok env st k hpb hk,
          bringUpBackendPhase_spawn_eq env
            { st with ollama_process := some k } [ollamaSpawnEvent]
            exe dir h hexe hdir hfile hspawn]
        simp

/-- Witness for C2: concrete execution with the engine already up; the
backend spawn is traced and handle 7 lands in the backend slot. -/
theorem c2_backend_spawned_unconditionally_witness :
    flaskSpawnEvent (["home"] ++ ["backend", "app.py"]) ∈
        (start_backend_services envC2 st0).events ∧
    (start_backend_services envC2 st0).state.flask_process = some 7 :=
  c2_backend_spawned_unconditionally envC2 st0 ["home", "app"] ["home"] 7
    rfl rfl rfl rfl (Or.inl (by decide))

/-- C3: when bring-up reaches the backend step and the entry file is
absent, the call fails with the not-found message (which names `app.py`),
no backend spawn is attempted, and the backend slot is unchanged. -/
theorem c3_missing_entry_file (env : Env) (st : AppState)
    (exe dir : List String)
    (hexe : env.currentExe = .ok exe) (hdir : parentDir exe = some dir)
    (hfile : env.fileExists (dir ++ ["backend", "app.py"]) = false)
    (hreach : probeBool env.ollamaResp1 = true ∨
      ∃ k, env.ollamaSpawn = .ok k) :
    (start_backend_services env st).res = .error backendNotFoundMsg ∧
    containsSubstr backendNotFoundMsg "app.py" ∧
    (∀ s, flaskSpawnEvent s ∉ (start_backend_services env st).events) ∧
    (start_backend_services env st).state.flask_process =
      st.flask_process := by
  have hsub : containsSubstr backendNotFoundMsg "app.py" := by decide
  have hup : probeBool env.ollamaResp1 = true →
      (start_backend_services env st).res = .error backendNotFoundMsg ∧
      containsSubstr backendNotFoundMsg "app.py" ∧
      (∀ s, flaskSpawnEvent s ∉ (start_backend_services env st).events) ∧
      (start_backend_services env st).state.flask_process =
        st.flask_process := by
    intro hpb
    rw [start_backend_services_up env st hpb,
      bringUpBackendPhase_missing_eq env st [] exe dir hexe hdir hfile]
    exact ⟨rfl, hsub, fun s => by simp, rfl⟩
  rcases hreach with hpb | ⟨k, hk⟩
  · exact hup hpb
  · cases hpb : probeBool env.ollamaResp1 with
    | true => exact hup hpb
    | false =>
        rw [start_backend_services_down_ok env st k hpb hk,
          bringUpBackendPhase_missing_eq env
            { st with ollama_process := some k } [ollamaSpawnEvent]
            exe dir hexe hdir hfile]
        refine ⟨rfl, hsub, fun s => ?_, rfl⟩
        simp [flaskSpawnEvent, ollamaSpawnEvent]

/-- Witness for C3: concrete execution with the entry file absent; bring-up
returns the not-found error and the backend slot stays empty. -/
theorem c3_missing_entry_file_witness :
    (start_backend_services envC3 st0).res = .error backendNotFoundMsg ∧
    (start_backend_services envC3 st0).state.flask_process = none :=
  ⟨(c3_missing_entry_file envC3 st0 ["home", "app"] ["home"]
      rfl rfl rfl (Or.inl (by decide))).1,
   ((c3_missing_entry_file envC3 st0 ["home", "app"] ["home"]
      rfl rfl rfl (Or.inl (by decide))).2.2.2).trans rfl⟩

/-- C4: the health probes are total — they answer `Ok` of the probe
boolean, which is true exactly on a received success response — and
consequently bring-up coincides with its variant whose engine-status error
branch is removed. -/
theorem c4_probes_never_error :
    (∀ r, check_flask_running r = .ok (probeBool r)) ∧
    (∀ r, check_ollama_running r = .ok (probeBool r)) ∧
    (∀ r, probeBool r = true ↔
        ∃ s, r = some s ∧ status_is_success s = true) ∧
    (∀ env st, start_backend_services env st =
        start_backend_services_total env st) := by
  refine ⟨check_flask_running_eq, check_ollama_running_eq, ?_, ?_⟩
  · intro r
    cases r with
    | none => simp [probeBool]
    | some s => simp [probeBool]
  · intro env st
    unfold start_backend_services start_backend_services_total
    rw [check_ollama_running_eq]
    cases hpb : probeBool env.ollamaResp1 <;> simp

/-- Any `Ok` status produced by the backend phase carries the all-or-nothing
message determined by its two booleans. -/
theorem bringUpBackendPhase_ok_status (env : Env) (st1 : AppState)
    (ev : List Event) (status : ServiceStatus)
    (hok : (bringUpBackendPhase env st1 ev).res = .ok status) :
    status.message =
      if status.flask_running && status.ollama_running then
        "All services started successfully"
      else "Some services failed to start" := by
  rcases hexe : env.currentExe with e | exe
  · rw [bringUpBackendPhase_exe_err env st1 ev e hexe] at hok
    simp at hok
  · rcases hdir : parentDir exe with _ | dir
    · rw [bringUpBackendPhase_parent_none env st1 ev exe hexe hdir] at hok
      simp at hok
    · cases hfile : env.fileExists (dir ++ ["backend", "app.py"]) with
      | false =>
          rw [bringUpBackendPhase_missing_eq env st1 ev exe dir
            hexe hdir hfile] at hok
          simp at hok
      | true =>
          rcases hspawn : env.flaskSpawn with e | h
          · rw [bringUpBackendPhase_spawn_err env st1 ev exe dir e
              hexe hdir hfile hspawn] at hok
            simp at hok
          · rw [bringUpBackendPhase_spawn_eq env st1 ev exe dir h
              hexe hdir hfile hspawn] at hok
            injection hok with h2
            subst h2
            rfl

/-- Any `Ok` status produced by bring-up carries the all-or-nothing message
determined by its two booleans. -/
theorem start_backend_services_ok_status (env : Env) (st : AppState)
    (status : ServiceStatus)
    (hok : (start_backend_services env st).res = .ok status) :
    status.message =
      if status.flask_running && status.ollama_running then
        "All services started successfully"
      else "Some services failed to start" := by
  cases hpb : probeBool env.ollamaResp1 with
  | true =>
      rw [start_backend_services_up env st hpb] at hok
      exact bringUpBackendPhase_ok_status env st [] status hok
  | false =>
      rcases hsp : env.ollamaSpawn with e | h
      · rw [start_backend_services_down_err env st e hpb hsp] at hok
        simp at hok
      · rw [start_backend_services_down_ok env st h hpb hsp] at hok
        exact bringUpBackendPhase_ok_status env
          { st with ollama_process := some h } [ollamaSpawnEvent] status hok

/-- C5 counterexample: with both services up the on-demand status line is
`"Flask: Running, Ollama: Running"`, which does not contain the substring
`"Running, Running"` asserted by the claim. -/
theorem c5_status_line_counterexample :
    check_service_status (some 200) (some 200) =
      .ok ⟨true, true, "Flask: Running, Ollama: Running"⟩ ∧
    ¬ containsSubstr "Flask: Running, Ollama: Running" "Running, Running" :=
  ⟨rfl, by decide⟩

/-- C5 (amended): the messages are fully determined by the two booleans —
both up gives the all-success post-startup sentence, any service down gives
the some-failed sentence, and the on-demand line for both up contains
`"Running, Ollama: Running"` (each service listed as Running), not
`"Running, Running"`. -/
theorem c5_status_messages_amended :
    (∀ env st status,
        (start_backend_services env st).res = .ok status →
        ((status.flask_running = true ∧ status.ollama_running = true) →
            status.message = "All services started successfully") ∧
        ((status.flask_running = false ∨ status.ollama_running = false) →
            status.message = "Some services failed to start")) ∧
    (∀ fr orr status,
        check_service_status fr orr = .ok status →
        status.flask_running = true → status.ollama_running = true →
        containsSubstr status.message "Running, Ollama: Running") := by
  constructor
  · intro env st status hok
    have hmsg := start_backend_services_ok_status env st status hok
    constructor
    · rintro ⟨hf, ho⟩
      rw [hmsg, hf, ho]
      rfl
    · rintro (hf | ho)
      · rw [hmsg, hf]
        rfl
      · rw [hmsg, ho]
        simp
  · intro fr orr status hok hf ho
    unfold check_service_status at hok
    rw [unwrap_check_flask, unwrap_check_ollama] at hok
    injection hok with h2
    subst h2
    simp only at hf ho
    rw [hf, ho] at *
    simp only [hf, ho, if_true]
    decide

/-- Witness for the amended C5: concrete all-healthy execution yields the
all-success sentence and the on-demand line contains the amended
substring. -/
theorem c5_status_messages_amended_witness :
    (start_backend_services envC5 st0).res =
      .ok ⟨true, true, "All services started successfully"⟩ ∧
    (⟨true, true, "All services started successfully"⟩ :
        ServiceStatus).message = "All services started successfully" ∧
    containsSubstr "Flask: Running, Ollama: Running"
      "Running, Ollama: Running" := by
  refine ⟨rfl, ?_, ?_⟩
  · exact (c5_status_messages_amended.1 envC5 st0
      ⟨true, true, "All services started successfully"⟩ rfl).1 ⟨rfl, rfl⟩
  · exact c5_status_messages_amended.2 (some 200) (some 200)
      ⟨true, true, "Flask: Running, Ollama: Running"⟩ rfl rfl rfl

/-- C6: when the engine presence check fails, the platform install command
is the second traced command, right after the version check and before any
pull; when the presence check succeeds and the model is listed, the call
returns the already-satisfied message and neither an install command nor
the pull command is traced. -/
theorem c6_installer_order (env : InstallEnv) :
    (env.versionCheck = false →
        ∃ rest, (install_ollama_and_model env).2 =
          versionCheckEvent ::
            Event.execCmd (installCommand env.platform).1
              (installCommand env.platform).2 :: rest) ∧
    (env.versionCheck = true →
        check_phi_model_available env.tagsResp = true →
        (install_ollama_and_model env).1 =
          .ok "Ollama and phi model are already installed" ∧
        (∀ p, Event.execCmd (installCommand p).1 (installCommand p).2 ∉
            (install_ollama_and_model env).2) ∧
        pullEvent ∉ (install_ollama_and_model env).2) := by
  constructor
  · intro hvc
    rcases hic : env.installCmd with e | b
    · exact ⟨[], by
        simp [install_ollama_and_model, check_ollama_installed,
          install_ollama, hvc, hic]⟩
    · cases b with
      | false =>
          exact ⟨[], by
            simp [install_ollama_and_model, check_ollama_installed,
              install_ollama, hvc, hic]⟩
      | true =>
          rcases hpc : env.pullCmd with e | p
          · exact ⟨[pullEvent], by
              simp [install_ollama_and_model, check_ollama_installed,
                install_ollama, pull_phi_model, hvc, hic, hpc]⟩
          · rcases p with ⟨s, txt⟩
            cases s <;>
              exact ⟨[pullEvent], by
                simp [install_ollama_and_model, check_ollama_installed,
                  install_ollama, pull_phi_model, hvc, hic, hpc]⟩
  · intro hvc htags
    have hev : (install_ollama_and_model env).2 = [versionCheckEvent] := by
      simp [install_ollama_and_model, check_ollama_installed, hvc, htags]
    refine ⟨?_, ?_, ?_⟩
    · simp [install_ollama_and_model, check_ollama_installed, hvc, htags]
    · intro p
      rw [hev]
      cases p <;> decide
    · rw [hev]
      decide

/-- Witness for C6: with the engine absent the install command is traced
second; with the engine and model present the call reports
already-satisfied. -/
theorem c6_installer_order_witness :
    ((install_ollama_and_model envC6a).2).take 2 =
      [versionCheckEvent,
        Event.execCmd "curl" ["-fsSL", "https://ollama.ai/install.sh",
          "|", "sh"]] ∧
    (install_ollama_and_model envC6b).1 =
      .ok "Ollama and phi model are already installed" ∧
    pullEvent ∉ (install_ollama_and_model envC6b).2 := by
  refine ⟨?_, ?_, ?_⟩
  · obtain ⟨rest, hr⟩ := (c6_installer_order envC6a).1 rfl
    rw [hr]
    rfl
  · exact ((c6_installer_order envC6b).2 rfl (by decide)).1
  · exact ((c6_installer_order envC6b).2 rfl (by decide)).2.2

/-- C7: a pull command exiting with non-success status makes the installer
return an error whose text contains the captured standard-error content. -/
theorem c7_pull_error_contains_stderr (errText : String) :
    (pull_phi_model (.ok (false, errText))).1 =
      .error ("Failed to pull phi model: " ++ errText) ∧
    containsSubstr ("Failed to pull phi model: " ++ errText) errText :=
  ⟨rfl, ⟨"Failed to pull phi model: ".toList, [], by simp [String.toList]⟩⟩

/-- C8: when both slots hold handles, the close handler empties both slots
and issues exactly one kill per stored handle, backend first. -/
theorem c8_close_kills_both (st : AppState) (hF hO : Nat)
    (hf : st.flask_process = some hF) (ho : st.ollama_process = some hO) :
    on_close_requested st =
      (⟨none, none⟩, [Event.killProc hF, Event.killProc hO]) := by
  unfold on_close_requested
  rw [hf, ho]
  rfl

/-- Witness for C8: closing with handles 1 and 2 stored kills exactly 1
then 2 and empties both slots. -/
theorem c8_close_kills_both_witness :
    on_close_requested ⟨some 1, some 2⟩ =
      (⟨none, none⟩, [Event.killProc 1, Event.killProc 2]) :=
  c8_close_kills_both ⟨some 1, some 2⟩ 1 2 rfl rfl

/-- C9: on macOS and Linux the only command the installer runs is `curl`
itself, with the pipe bar and the interpreter name passed as plain
arguments — no shell interpreter is invoked, so the fetched script is never
executed; a non-success exit of that command is still propagated as an
installation failure. -/
theorem c9_unix_install_invokes_curl_only :
    (install_ollama .linux (.ok true)).2 =
      [Event.execCmd "curl"
        ["-fsSL", "https://ollama.ai/install.sh", "|", "sh"]] ∧
    (install_ollama .macos (.ok true)).2 =
      [Event.execCmd "curl"
        ["-fsSL", "https://ollama.ai/install.sh", "|", "sh"]] ∧
    (install_ollama .linux (.ok false)).1 =
      .error "Ollama installation failed" ∧
    (install_ollama .macos (.ok false)).1 =
      .error "Ollama installation failed" :=
  ⟨rfl, rfl, rfl, rfl⟩

/-- C10: the close handler is idempotent — it always leaves both slots
empty, and a second run finds nothing and issues no kill. -/
theorem c10_close_idempotent (st : AppState) :
    (on_close_requested st).1 = ⟨none, none⟩ ∧
    on_close_requested (on_close_requested st).1 = (⟨none, none⟩, []) :=
  ⟨rfl, rfl⟩

end StudyCompanion
